import Mathlib

/-!
Verification of `library/aarch64_vm.py`, an Ansible module managing VMs on the
Fosshost aarch64 platform.  The module consists of an HTTP API client
(`Aarch64Client`) and a command handler (`main`).  We embed the Python code
shallowly: JSON values become an inductive `Json` type, the HTTP transport
becomes an oracle function from requests to responses, and the handler becomes
a pure function returning its outcome together with the trace of requests it
issued.  An uncaught Python exception (KeyError / TypeError on malformed JSON)
is modelled by the distinguished outcome `crash`.
-/

set_option autoImplicit false

namespace Aarch64VM

/-- JSON values, as produced by `resp.json()` in the Python source.  Numbers
are modelled as integers (no claim involves fractional numbers).  Objects are
association lists in insertion order, matching Python dict iteration order. -/
inductive Json where
  | null : Json
  | bool : Bool → Json
  | str : String → Json
  | num : Int → Json
  | arr : List Json → Json
  | obj : List (String × Json) → Json
deriving Repr

/-- Key lookup in an association list, first binding wins (Python dicts have
unique keys, so the first binding is the only one). -/
def lookupField : List (String × Json) → String → Option Json
  | [], _ => none
  | (k, v) :: rest, key => if k = key then some v else lookupField rest key

/-- Python subscription `j[key]` with a string key: `some` value on a dict that
has the key, `none` when the key is missing (KeyError) or the value is not a
dict (TypeError); the caller turns `none` into a crash. -/
def Json.get : Json → String → Option Json
  | .obj fields, key => lookupField fields key
  | _, _ => none

/-- Python truthiness of a JSON value, as used by
`if not resp.json()["meta"]["success"]`. -/
def Json.truthy : Json → Bool
  | .null => false
  | .bool b => b
  | .str s => s != ""
  | .num n => n != 0
  | .arr xs => !xs.isEmpty
  | .obj fs => !fs.isEmpty

/-- Python iteration `for x in j`: lists yield their elements, dicts yield
their keys, strings yield their one-character substrings; other values raise
TypeError (`none`). -/
def Json.pyIter : Json → Option (List Json)
  | .arr xs => some xs
  | .obj fs => some (fs.map (fun kv => Json.str kv.1))
  | .str s => some (s.toList.map (fun c => Json.str (String.mk [c])))
  | _ => none

/-- Python `==` between a JSON value and an optional string, as in
`_project["_id"] == module.params["project"]` (the parameter is a `str` or
`None`): strings compare by content, `null` equals `None`, and every other
combination is unequal. -/
def pyEqOptStr : Json → Option String → Bool
  | .str s, some s' => s == s'
  | .null, none => true
  | _, _ => false

/-- Python `project == {}`: true exactly for a dict with no entries. -/
def Json.isEmptyDict : Json → Bool
  | .obj [] => true
  | _ => false

/-- An optional string module parameter as it appears in a JSON request body
(`None` serialises to `null`). -/
def optJson : Option String → Json
  | some s => .str s
  | none => .null

/-- Python `f"...{x}"` on an optional string parameter: `None` prints as
`"None"`. -/
def pyStrOpt : Option String → String
  | some s => s
  | none => "None"

/-- An HTTP request as built by `requests.request(method, url, json=body,
headers=...)`. -/
structure Request where
  method : String
  url : String
  body : Option Json
  headers : List (String × String)

/-- An HTTP response: transport status code plus parsed JSON body
(`resp.status_code` and `resp.json()`). -/
structure HttpResponse where
  status_code : Nat
  body : Json

/-- What `_req` can raise: `apiExc m` is the single `ApiException` class with
its `message` payload (the Python code stores whatever JSON value was in
`meta.message`); `pyCrash` is an uncaught Python error (KeyError/TypeError on
a body without the expected envelope shape). -/
inductive ReqError where
  | apiExc : Json → ReqError
  | pyCrash : ReqError

/-- The check performed by `Aarch64Client._req` on a transport response:
non-200 status raises `ApiException(f"API returned HTTP {status}")`;
otherwise a falsy `meta.success` raises `ApiException(meta.message)`;
otherwise the response is returned.  Missing envelope keys crash. -/
def reqOutcome (resp : HttpResponse) : Except ReqError HttpResponse :=
  if resp.status_code ≠ 200 then
    .error (.apiExc (.str ("API returned HTTP " ++ toString resp.status_code)))
  else
    match resp.body.get "meta" with
    | none => .error .pyCrash
    | some meta =>
      match meta.get "success" with
      | none => .error .pyCrash
      | some sv =>
        if sv.truthy then .ok resp
        else
          match meta.get "message" with
          | none => .error .pyCrash
          | some m => .error (.apiExc m)

/-- Base URL of the API (`Aarch64Client.server`). -/
def server : String := "https://console.aarch64.com/api"

/-- `Aarch64Client`: holds the API key passed to the constructor. -/
structure Aarch64Client where
  api_key : String

/-- The request built by `Aarch64Client._req`: method, server-relative URL,
JSON body, and the `Authorization: <api_key>` header. -/
def Aarch64Client.req_request (c : Aarch64Client) (method endpoint : String)
    (body : Option Json) : Request :=
  { method := method, url := server ++ endpoint, body := body,
    headers := [("Authorization", c.api_key)] }

/-- The request issued by `Aarch64Client.projects` (GET /projects, no body). -/
def Aarch64Client.projects_req (c : Aarch64Client) : Request :=
  c.req_request "GET" "/projects" none

/-- The request issued by `Aarch64Client.create_vm`: POST /vms/create with a
JSON body of exactly the five fields hostname, pop, project, plan, os. -/
def Aarch64Client.create_vm_req (c : Aarch64Client)
    (hostname pop project_id plan os : Json) : Request :=
  c.req_request "POST" "/vms/create" (some (.obj [
    ("hostname", hostname),
    ("pop", pop),
    ("project", project_id),
    ("plan", plan),
    ("os", os)]))

/-- The request issued by `Aarch64Client.delete_vm`: DELETE /vms/delete with
body `{vm: vmId}`. -/
def Aarch64Client.delete_vm_req (c : Aarch64Client) (vm : Json) : Request :=
  c.req_request "DELETE" "/vms/delete" (some (.obj [("vm", vm)]))

/-- The module parameters declared in `argument_spec`: every `type="str"`
option is a string or `None` when not supplied; `state` defaults to
`"present"` (`AnsibleModule` restricts it to `present`/`absent`). -/
structure Params where
  api_key : String
  id : Option String
  hostname : Option String
  project : Option String
  plan : Option String
  os : Option String
  pop : Option String
  state : String

/-- The client built in `main`: `Aarch64Client(module.params["api_key"])`. -/
def client (p : Params) : Aarch64Client := ⟨p.api_key⟩

/-- The create-VM request `main` builds from its parameters
(`client.create_vm(params.get("hostname"), params.get("pop"),
params.get("project"), params.get("plan"), params.get("os"))`). -/
def createReq (p : Params) : Request :=
  (client p).create_vm_req (optJson p.hostname) (optJson p.pop)
    (optJson p.project) (optJson p.plan) (optJson p.os)

/-- The delete-VM request `main` builds from its parameters
(`client.delete_vm(params.get("id"))`). -/
def deleteReq (p : Params) : Request :=
  (client p).delete_vm_req (optJson p.id)

/-- The result document passed to `module.exit_json`: the `changed` flag and
the optional `message` and `vm` keys are the only keys `main` ever sets. -/
structure ResultDoc where
  changed : Bool
  message : Option Json
  vm : Option Json

/-- How one invocation of `main` terminates: `exit r` is `module.exit_json`
with result `r`; `fail msg` is `module.fail_json(msg=msg)` (the failure
document carries only the message, never a `vm` key); `crash` is an uncaught
Python exception (no result document at all). -/
inductive Outcome where
  | exit : ResultDoc → Outcome
  | fail : String → Outcome
  | crash : Outcome

/-- The project scan loop of the `present` branch:
`for _project in data: if _project["_id"] == params["project"]: project = _project`,
started with the sentinel `project = {}`.  A record on which `["_id"]` raises
(missing key or non-dict) aborts the loop with an uncaught error. -/
def projectScan : List Json → Option String → Json → Except Unit Json
  | [], _, acc => .ok acc
  | item :: rest, pid, acc =>
    match Json.get item "_id" with
    | none => .error ()
    | some v => projectScan rest pid (if pyEqOptStr v pid then item else acc)

/-- The tail of the `present` branch after the project was found: issue the
create-VM request; an `ApiException` is reported as "Unable to create VM: "
plus the exception's message (a non-string message makes the f-string raise,
i.e. crash); on success the result is `changed = True` with the response's
`data` payload as `vm` and `meta.message` as `message`. -/
def mainPresentCreate (p : Params) (t : Request → HttpResponse) :
    Outcome × List Request :=
  let r1 := (client p).projects_req
  let r2 := createReq p
  match reqOutcome (t r2) with
  | .error (.apiExc (.str m)) => (.fail ("Unable to create VM: " ++ m), [r1, r2])
  | .error _ => (.crash, [r1, r2])
  | .ok cresp =>
    match cresp.body.get "data",
          (cresp.body.get "meta").bind (fun mj => Json.get mj "message") with
    | some vmdoc, some msg => (.exit ⟨true, some msg, some vmdoc⟩, [r1, r2])
    | _, _ => (.crash, [r1, r2])

/-- The `present` branch after a successful list-projects call `presp`: read
`data`, iterate it scanning for the requested project id; if the sentinel is
still `{}` report "Unable to find project with id <id>", otherwise continue
with the create-VM call. -/
def mainPresentListed (p : Params) (t : Request → HttpResponse)
    (presp : HttpResponse) : Outcome × List Request :=
  let r1 := (client p).projects_req
  match presp.body.get "data" with
  | none => (.crash, [r1])
  | some data =>
    match data.pyIter with
    | none => (.crash, [r1])
    | some items =>
      match projectScan items p.project (.obj []) with
      | .error _ => (.crash, [r1])
      | .ok project =>
        if project.isEmptyDict then
          (.fail ("Unable to find project with id " ++ pyStrOpt p.project), [r1])
        else mainPresentCreate p t

/-- The `present` branch: issue the list-projects request; an `ApiException`
is reported as "Unable to get projects: " plus the exception's message. -/
def mainPresent (p : Params) (t : Request → HttpResponse) :
    Outcome × List Request :=
  let r1 := (client p).projects_req
  match reqOutcome (t r1) with
  | .error (.apiExc (.str m)) => (.fail ("Unable to get projects: " ++ m), [r1])
  | .error _ => (.crash, [r1])
  | .ok presp => mainPresentListed p t presp

/-- The `absent` branch: issue the delete-VM request with body
`{vm: params["id"]}`; an `ApiException` is reported as "Unable to delete VM: "
plus the exception's message; on success the result is `changed = True` with
the response's `meta.message` as `message` (and no `vm` key). -/
def mainAbsent (p : Params) (t : Request → HttpResponse) :
    Outcome × List Request :=
  let r1 := deleteReq p
  match reqOutcome (t r1) with
  | .error (.apiExc (.str m)) => (.fail ("Unable to delete VM: " ++ m), [r1])
  | .error _ => (.crash, [r1])
  | .ok dresp =>
    match (dresp.body.get "meta").bind (fun mj => Json.get mj "message") with
    | some msg => (.exit ⟨true, some msg, none⟩, [r1])
    | none => (.crash, [r1])

/-- The command handler `main`, as a function of the parameters and the HTTP
transport: it returns the terminal outcome together with the list of HTTP
requests issued, in order. -/
def main (p : Params) (t : Request → HttpResponse) : Outcome × List Request :=
  if p.state = "present" then mainPresent p t
  else if p.state = "absent" then mainAbsent p t
  else (.exit ⟨false, none, none⟩, [])

/-! ### Concrete fixtures used to instantiate the theorems -/

/-- A well-formed success envelope with the given `data` payload. -/
def exampleBody (payload : Json) : Json :=
  .obj [("meta", .obj [("success", .bool true), ("message", .str "ok")]),
        ("data", payload)]

/-- A one-project listing, project id `"p1"`. -/
def exampleProjects : Json := .arr [.obj [("_id", .str "p1")]]

/-- A transport where listing projects returns `exampleProjects` and every
other call succeeds returning a VM record `{_id: "v1"}`. -/
def exampleT : Request → HttpResponse := fun r =>
  if r.url = server ++ "/projects" then ⟨200, exampleBody exampleProjects⟩
  else ⟨200, exampleBody (.obj [("_id", .str "v1")])⟩

/-- Parameters asking for a VM in project `"p1"`. -/
def examplePresent : Params :=
  ⟨"key", none, some "host", some "p1", some "v1.small", some "debian",
   some "dfw", "present"⟩

/-- Parameters asking to delete VM `"v1"`. -/
def exampleAbsent : Params :=
  ⟨"key", some "v1", none, none, none, none, none, "absent"⟩

/-- A transport where listing projects succeeds but any other call is refused
by the API with message `"quota exceeded"`. -/
def exampleTCreateFail : Request → HttpResponse := fun r =>
  if r.url = server ++ "/projects" then ⟨200, exampleBody exampleProjects⟩
  else ⟨200, .obj [("meta", .obj [("success", .bool false),
                                   ("message", .str "quota exceeded")])]⟩

/-- A transport answering HTTP 500 to everything. -/
def exampleTDown : Request → HttpResponse := fun _ => ⟨500, .null⟩

/-- A transport whose project listing is empty. -/
def exampleTEmpty : Request → HttpResponse := fun _ => ⟨200, exampleBody (.arr [])⟩

/-! ### Helper lemmas about `_req` -/

theorem reqOutcome_transport (resp : HttpResponse) (h : resp.status_code ≠ 200) :
    reqOutcome resp =
      .error (.apiExc (.str ("API returned HTTP " ++ toString resp.status_code))) := by
  simp [reqOutcome, h]

theorem reqOutcome_ok (resp : HttpResponse) (meta sv : Json)
    (h200 : resp.status_code = 200)
    (hmeta : Json.get resp.body "meta" = some meta)
    (hsucc : Json.get meta "success" = some sv)
    (ht : sv.truthy = true) :
    reqOutcome resp = .ok resp := by
  simp [reqOutcome, h200, hmeta, hsucc, ht]

theorem reqOutcome_apiError (resp : HttpResponse) (meta sv m : Json)
    (h200 : resp.status_code = 200)
    (hmeta : Json.get resp.body "meta" = some meta)
    (hsucc : Json.get meta "success" = some sv)
    (ht : sv.truthy = false)
    (hmsg : Json.get meta "message" = some m) :
    reqOutcome resp = .error (.apiExc m) := by
  simp [reqOutcome, h200, hmeta, hsucc, ht, hmsg]

/-! ### Helper lemmas about the project scan -/

theorem pyEqOptStr_some_iff (w : Json) (s : String) :
    pyEqOptStr w (some s) = true ↔ w = .str s := by
  cases w <;> simp [pyEqOptStr]

theorem get_some_not_emptyDict (v : Json) (k : String) (w : Json)
    (h : Json.get v k = some w) : v.isEmptyDict = false := by
  cases v with
  | obj fs =>
    cases fs with
    | nil => simp [Json.get, lookupField] at h
    | cons f fs => rfl
  | null => simp [Json.get] at h
  | bool b => simp [Json.get] at h
  | str s => simp [Json.get] at h
  | num n => simp [Json.get] at h
  | arr xs => simp [Json.get] at h

/-- If every scanned record has an `_id`, the scan never raises, and its
result is either the accumulator it started from or a record whose `_id`
matches the requested id. -/
theorem projectScan_shape (pid : Option String) :
    ∀ (items : List Json) (acc : Json),
      (∀ r ∈ items, (Json.get r "_id").isSome) →
      ∃ v, projectScan items pid acc = .ok v ∧
        (v = acc ∨ ∃ w, Json.get v "_id" = some w ∧ pyEqOptStr w pid = true) := by
  intro items
  induction items with
  | nil => exact fun acc _ => ⟨acc, rfl, Or.inl rfl⟩
  | cons item rest ih =>
    intro acc hids
    obtain ⟨w, hw⟩ := Option.isSome_iff_exists.mp (hids item (List.mem_cons_self _ _))
    have hrest : ∀ r ∈ rest, (Json.get r "_id").isSome :=
      fun r hr => hids r (List.mem_cons_of_mem _ hr)
    by_cases hm : pyEqOptStr w pid = true
    · obtain ⟨v, hv, hcase⟩ := ih item hrest
      refine ⟨v, ?_, ?_⟩
      · simp [projectScan, hw, hm, hv]
      · rcases hcase with h | h
        · exact Or.inr ⟨w, h ▸ hw, hm⟩
        · exact Or.inr h
    · obtain ⟨v, hv, hcase⟩ := ih acc hrest
      refine ⟨v, ?_, hcase⟩
      simp [projectScan, hw, hm, hv]

/-- If no record's `_id` matches, the scan returns the accumulator. -/
theorem projectScan_no_match (pid : Option String) :
    ∀ (items : List Json) (acc : Json),
      (∀ r ∈ items, (Json.get r "_id").isSome) →
      (∀ r ∈ items, ∀ w, Json.get r "_id" = some w → pyEqOptStr w pid = false) →
      projectScan items pid acc = .ok acc := by
  intro items
  induction items with
  | nil => exact fun acc _ _ => rfl
  | cons item rest ih =>
    intro acc hids hno
    obtain ⟨w, hw⟩ := Option.isSome_iff_exists.mp (hids item (List.mem_cons_self _ _))
    have hfalse := hno item (List.mem_cons_self _ _) w hw
    have := ih acc (fun r hr => hids r (List.mem_cons_of_mem _ hr))
      (fun r hr => hno r (List.mem_cons_of_mem _ hr))
    simp [projectScan, hw, hfalse, this]

/-- If some record's `_id` matches, the scan returns a record whose `_id`
matches. -/
theorem projectScan_match (pid : Option String) :
    ∀ (items : List Json) (acc : Json),
      (∀ r ∈ items, (Json.get r "_id").isSome) →
      (∃ r ∈ items, ∃ w, Json.get r "_id" = some w ∧ pyEqOptStr w pid = true) →
      ∃ v w, projectScan items pid acc = .ok v ∧
        Json.get v "_id" = some w ∧ pyEqOptStr w pid = true := by
  intro items
  induction items with
  | nil => rintro acc _ ⟨r, hr, _⟩; exact absurd hr (List.not_mem_nil r)
  | cons item rest ih =>
    rintro acc hids ⟨r, hr, w0, hw0, hm0⟩
    obtain ⟨w, hw⟩ := Option.isSome_iff_exists.mp (hids item (List.mem_cons_self _ _))
    have hrest : ∀ r ∈ rest, (Json.get r "_id").isSome :=
      fun r hr => hids r (List.mem_cons_of_mem _ hr)
    rcases List.mem_cons.mp hr with rfl | hr'
    · have hww0 : w = w0 := by rw [hw] at hw0; exact (Option.some.injEq _ _ ▸ hw0)
      subst hww0
      obtain ⟨v, hv, hcase⟩ := projectScan_shape pid rest r hrest
      refine ⟨v, ?_⟩
      rcases hcase with h | ⟨w', hw', hm'⟩
      · exact ⟨w, by simp [projectScan, hw, hm0, hv], h ▸ hw, hm0⟩
      · exact ⟨w', by simp [projectScan, hw, hm0, hv], hw', hm'⟩
    · obtain ⟨v, w', hv, hw', hm'⟩ := ih (if pyEqOptStr w pid then item else acc)
        hrest ⟨r, hr', w0, hw0, hm0⟩
      exact ⟨v, w', by simp [projectScan, hw]; exact hv, hw', hm'⟩

/-! ### Helper lemmas about the stages of `main` -/

theorem main_eq_present (p : Params) (t : Request → HttpResponse)
    (h : p.state = "present") : main p t = mainPresent p t := by
  simp [main, h]

theorem main_eq_absent (p : Params) (t : Request → HttpResponse)
    (h : p.state = "absent") : main p t = mainAbsent p t := by
  simp [main, h]

theorem mainPresent_fail (p : Params) (t : Request → HttpResponse) (m : String)
    (h : reqOutcome (t ((client p).projects_req)) = .error (.apiExc (.str m))) :
    mainPresent p t =
      (.fail ("Unable to get projects: " ++ m), [(client p).projects_req]) := by
  simp [mainPresent, h]

theorem mainPresent_listed (p : Params) (t : Request → HttpResponse)
    (presp : HttpResponse)
    (h : reqOutcome (t ((client p).projects_req)) = .ok presp) :
    mainPresent p t = mainPresentListed p t presp := by
  simp [mainPresent, h]

theorem mainPresentListed_notfound (p : Params) (t : Request → HttpResponse)
    (presp : HttpResponse) (items : List Json)
    (hdata : Json.get presp.body "data" = some (.arr items))
    (hscan : projectScan items p.project (.obj []) = .ok (.obj [])) :
    mainPresentListed p t presp =
      (.fail ("Unable to find project with id " ++ pyStrOpt p.project),
       [(client p).projects_req]) := by
  simp [mainPresentListed, hdata, Json.pyIter, hscan, Json.isEmptyDict]

theorem mainPresentListed_found (p : Params) (t : Request → HttpResponse)
    (presp : HttpResponse) (items : List Json) (v : Json)
    (hdata : Json.get presp.body "data" = some (.arr items))
    (hscan : projectScan items p.project (.obj []) = .ok v)
    (hne : v.isEmptyDict = false) :
    mainPresentListed p t presp = mainPresentCreate p t := by
  simp [mainPresentListed, hdata, Json.pyIter, hscan, hne]

theorem mainPresentCreate_fail (p : Params) (t : Request → HttpResponse)
    (m : String)
    (h : reqOutcome (t (createReq p)) = .error (.apiExc (.str m))) :
    mainPresentCreate p t =
      (.fail ("Unable to create VM: " ++ m),
       [(client p).projects_req, createReq p]) := by
  simp [mainPresentCreate, h]

theorem mainPresentCreate_ok (p : Params) (t : Request → HttpResponse)
    (cresp : HttpResponse) (vmdoc msg : Json)
    (h : reqOutcome (t (createReq p)) = .ok cresp)
    (hd : Json.get cresp.body "data" = some vmdoc)
    (hm : (Json.get cresp.body "meta").bind (fun mj => Json.get mj "message") =
      some msg) :
    mainPresentCreate p t =
      (.exit ⟨true, some msg, some vmdoc⟩,
       [(client p).projects_req, createReq p]) := by
  simp [mainPresentCreate, h, hd, hm]

theorem mainAbsent_fail (p : Params) (t : Request → HttpResponse) (m : String)
    (h : reqOutcome (t (deleteReq p)) = .error (.apiExc (.str m))) :
    mainAbsent p t = (.fail ("Unable to delete VM: " ++ m), [deleteReq p]) := by
  simp [mainAbsent, h]

theorem mainAbsent_ok (p : Params) (t : Request → HttpResponse)
    (dresp : HttpResponse) (msg : Json)
    (h : reqOutcome (t (deleteReq p)) = .ok dresp)
    (hm : (Json.get dresp.body "meta").bind (fun mj => Json.get mj "message") =
      some msg) :
    mainAbsent p t = (.exit ⟨true, some msg, none⟩, [deleteReq p]) := by
  simp [mainAbsent, h, hm]

/-- Whatever the transport does, the `absent` branch issues exactly the one
delete-VM request. -/
theorem mainAbsent_trace (p : Params) (t : Request → HttpResponse) :
    (mainAbsent p t).2 = [deleteReq p] := by
  simp only [mainAbsent]
  split
  · rfl
  · rfl
  · split <;> rfl

/-- The possible outcomes of the create-VM stage. -/
theorem mainPresentCreate_cases (p : Params) (t : Request → HttpResponse) :
    (mainPresentCreate p t).1 = .crash
    ∨ (∃ m, (mainPresentCreate p t).1 = .fail ("Unable to create VM: " ++ m))
    ∨ (∃ r, (mainPresentCreate p t).1 = .exit r ∧ r.changed = true
        ∧ r.message.isSome ∧ r.vm.isSome) := by
  simp only [mainPresentCreate]
  split
  · exact Or.inr (Or.inl ⟨_, rfl⟩)
  · exact Or.inl rfl
  · split
    · exact Or.inr (Or.inr ⟨_, rfl, rfl, rfl, rfl⟩)
    · exact Or.inl rfl

/-- The possible outcomes of the whole `present` branch. -/
theorem mainPresent_cases (p : Params) (t : Request → HttpResponse) :
    (mainPresent p t).1 = .crash
    ∨ (∃ m, (mainPresent p t).1 = .fail ("Unable to get projects: " ++ m))
    ∨ (∃ s, (mainPresent p t).1 = .fail ("Unable to find project with id " ++ s))
    ∨ (∃ m, (mainPresent p t).1 = .fail ("Unable to create VM: " ++ m))
    ∨ (∃ r, (mainPresent p t).1 = .exit r ∧ r.changed = true
        ∧ r.message.isSome ∧ r.vm.isSome) := by
  simp only [mainPresent]
  split
  · exact Or.inr (Or.inl ⟨_, rfl⟩)
  · exact Or.inl rfl
  · simp only [mainPresentListed]
    split
    · exact Or.inl rfl
    · split
      · exact Or.inl rfl
      · split
        · exact Or.inl rfl
        · split
          · exact Or.inr (Or.inr (Or.inl ⟨_, rfl⟩))
          · rcases mainPresentCreate_cases p t with h | ⟨m, h⟩ | ⟨r, h, h1, h2, h3⟩
            · exact Or.inl h
            · exact Or.inr (Or.inr (Or.inr (Or.inl ⟨m, h⟩)))
            · exact Or.inr (Or.inr (Or.inr (Or.inr ⟨r, h, h1, h2, h3⟩)))

/-- The possible outcomes of the `absent` branch. -/
theorem mainAbsent_cases (p : Params) (t : Request → HttpResponse) :
    (mainAbsent p t).1 = .crash
    ∨ (∃ m, (mainAbsent p t).1 = .fail ("Unable to delete VM: " ++ m))
    ∨ (∃ r, (mainAbsent p t).1 = .exit r ∧ r.changed = true
        ∧ r.message.isSome ∧ r.vm = none) := by
  simp only [mainAbsent]
  split
  · exact Or.inr (Or.inl ⟨_, rfl⟩)
  · exact Or.inl rfl
  · split
    · exact Or.inr (Or.inr ⟨_, rfl, rfl, rfl, rfl⟩)
    · exact Or.inl rfl

/-! ### Claims about the client's error handling -/

/-- C4, counterexample: the code does not classify failures into two
distinguishable kinds.  There is a single exception class `ApiException`
carrying only a message, and a transport failure (HTTP 500) produces an error
value identical to an API failure whose `meta.message` happens to be
`"API returned HTTP 500"`, so the two causes cannot be told apart. -/
theorem errorKinds_not_distinguishable :
    reqOutcome ⟨500, Json.obj []⟩ =
      reqOutcome ⟨200, Json.obj [("meta", Json.obj
        [("success", Json.bool false),
         ("message", Json.str "API returned HTTP 500")])]⟩
    ∧ reqOutcome ⟨500, Json.obj []⟩ =
        .error (.apiExc (.str "API returned HTTP 500")) := by
  exact ⟨rfl, rfl⟩

/-- C4, amended: failures of `_req` fall into two cases, both raising the one
`ApiException` kind: a non-200 transport status raises it with message
`"API returned HTTP <code>"`, and a 200 response whose `meta.success` is
false raises it with the API-supplied `meta.message`; the two cases are not
distinguishable by kind (only by message content, which can collide). -/
theorem apiException_two_causes_one_kind (resp : HttpResponse) (meta : Json)
    (m : String) :
    (resp.status_code ≠ 200 →
      reqOutcome resp = .error (.apiExc (.str
        ("API returned HTTP " ++ toString resp.status_code))))
    ∧ (resp.status_code = 200 →
       Json.get resp.body "meta" = some meta →
       Json.get meta "success" = some (.bool false) →
       Json.get meta "message" = some (.str m) →
       reqOutcome resp = .error (.apiExc (.str m))) := by
  refine ⟨fun h => reqOutcome_transport resp h, fun h200 hmeta hsucc hmsg => ?_⟩
  exact reqOutcome_apiError resp meta (.bool false) (.str m) h200 hmeta hsucc rfl hmsg

/-- Witness for C4's amended theorem, at a transport failure and at an API
failure. -/
theorem apiException_two_causes_one_kind_witness :
    reqOutcome ⟨500, Json.null⟩ =
      .error (.apiExc (.str ("API returned HTTP " ++ toString (500 : Nat))))
    ∧ reqOutcome ⟨200, Json.obj [("meta", Json.obj
        [("success", Json.bool false), ("message", Json.str "boom")])]⟩ =
      .error (.apiExc (.str "boom")) := by
  constructor
  · exact (apiException_two_causes_one_kind ⟨500, Json.null⟩ Json.null "boom").1
      (by decide)
  · exact (apiException_two_causes_one_kind
      ⟨200, Json.obj [("meta", Json.obj
        [("success", Json.bool false), ("message", Json.str "boom")])]⟩
      (Json.obj [("success", Json.bool false), ("message", Json.str "boom")])
      "boom").2 rfl rfl rfl rfl

/-- C5: on any transport status other than 200, `_req` (shared by every
client operation) fails with a message containing that status code, and the
response body is never inspected: the outcome is the same for any body. -/
theorem transport_error_uniform (resp : HttpResponse) (body2 : Json)
    (h : resp.status_code ≠ 200) :
    (∃ pre post : String, reqOutcome resp =
        .error (.apiExc (.str (pre ++ toString resp.status_code ++ post))))
    ∧ reqOutcome resp = reqOutcome ⟨resp.status_code, body2⟩ := by
  constructor
  · refine ⟨"API returned HTTP ", "", ?_⟩
    rw [reqOutcome_transport resp h]
    simp
  · rw [reqOutcome_transport resp h,
        reqOutcome_transport ⟨resp.status_code, body2⟩ h]

/-- Witness for C5 at status 404. -/
theorem transport_error_uniform_witness :
    (∃ pre post : String, reqOutcome ⟨404, Json.obj []⟩ =
        .error (.apiExc (.str (pre ++ toString (404 : Nat) ++ post))))
    ∧ reqOutcome ⟨404, Json.obj []⟩ = reqOutcome ⟨404, Json.null⟩ :=
  transport_error_uniform ⟨404, Json.obj []⟩ Json.null (by decide)

/-- C6: a 200 response whose `meta.success` is `false` makes `_req` fail with
exactly the body's `meta.message` string as the exception message. -/
theorem api_error_message_verbatim (resp : HttpResponse) (meta : Json)
    (m : String)
    (h200 : resp.status_code = 200)
    (hmeta : Json.get resp.body "meta" = some meta)
    (hsucc : Json.get meta "success" = some (.bool false))
    (hmsg : Json.get meta "message" = some (.str m)) :
    reqOutcome resp = .error (.apiExc (.str m)) :=
  reqOutcome_apiError resp meta (.bool false) (.str m) h200 hmeta hsucc rfl hmsg

/-- Bridge: "no record's `_id` equals the requested id" in terms of the
Python comparison used by the scan. -/
theorem no_match_of_forall_ne (items : List Json) (pid : String)
    (hno : ∀ r ∈ items, ¬ Json.get r "_id" = some (.str pid)) :
    ∀ r ∈ items, ∀ w, Json.get r "_id" = some w →
      pyEqOptStr w (some pid) = false := by
  intro r hr w hw
  cases hb : pyEqOptStr w (some pid)
  · rfl
  · exact absurd (by rw [hw, (pyEqOptStr_some_iff w pid).mp hb]) (hno r hr)

/-- The create-failure message and the project-not-found message never
coincide (they differ at the 11th character). -/
theorem create_msg_ne_find_msg (m s : String) :
    "Unable to create VM: " ++ m ≠ "Unable to find project with id " ++ s := by
  intro h
  have h2 := congrArg String.data h
  rw [String.data_append, String.data_append] at h2
  have h3 := congrArg (fun l => l[10]?) h2
  simp only at h3
  rw [List.getElem?_append_left (by decide), List.getElem?_append_left (by decide)] at h3
  exact absurd h3 (by decide)

/-- Witness for C6. -/
theorem api_error_message_verbatim_witness :
    reqOutcome ⟨200, Json.obj [("meta", Json.obj
        [("success", Json.bool false), ("message", Json.str "no such vm")])]⟩ =
      .error (.apiExc (.str "no such vm")) :=
  api_error_message_verbatim
    ⟨200, Json.obj [("meta", Json.obj
      [("success", Json.bool false), ("message", Json.str "no such vm")])]⟩
    (Json.obj [("success", Json.bool false), ("message", Json.str "no such vm")])
    "no such vm" rfl rfl rfl rfl

/-! ### Claims about the command handler -/

/-- C1: with `state = present`, when the requested project id is not the
`_id` of any listed project record, the handler issues no create-VM call (its
request trace is exactly the one list-projects request), never reaches
`exit_json` (so `changed` is never set to true), and terminates failing with
"Unable to find project with id <id>". -/
theorem present_project_not_found (p : Params) (t : Request → HttpResponse)
    (pid : String) (presp : HttpResponse) (items : List Json)
    (hstate : p.state = "present") (hpid : p.project = some pid)
    (hok : reqOutcome (t ((client p).projects_req)) = .ok presp)
    (hdata : Json.get presp.body "data" = some (.arr items))
    (hids : ∀ r ∈ items, (Json.get r "_id").isSome)
    (hno : ∀ r ∈ items, ¬ Json.get r "_id" = some (.str pid)) :
    main p t = (.fail ("Unable to find project with id " ++ pid),
                [(client p).projects_req]) := by
  have hscan : projectScan items p.project (.obj []) = .ok (.obj []) := by
    rw [hpid]
    exact projectScan_no_match (some pid) items _ hids
      (no_match_of_forall_ne items pid hno)
  rw [main_eq_present p t hstate, mainPresent_listed p t presp hok,
      mainPresentListed_notfound p t presp items hdata hscan, hpid]
  rfl

/-- Witness for C1: an empty project listing. -/
theorem present_project_not_found_witness :
    main examplePresent exampleTEmpty =
      (.fail ("Unable to find project with id " ++ "p1"),
       [(client examplePresent).projects_req]) := by
  refine present_project_not_found examplePresent exampleTEmpty "p1"
    ⟨200, exampleBody (.arr [])⟩ [] rfl rfl rfl rfl ?_ ?_
  · intro r hr; exact absurd hr (List.not_mem_nil r)
  · intro r hr; exact absurd hr (List.not_mem_nil r)

/-- C2: with `state = present`, when some listed record's `_id` equals the
requested project id and the create-VM call succeeds, the handler exits with
`changed = true`, `vm` equal to the create response's `data` payload
verbatim, and `message` equal to that response's `meta.message`; the trace is
the list-projects request followed by the create-VM request. -/
theorem present_create_success (p : Params) (t : Request → HttpResponse)
    (pid : String) (presp cresp : HttpResponse) (items : List Json)
    (vmdoc msg : Json)
    (hstate : p.state = "present") (hpid : p.project = some pid)
    (hok : reqOutcome (t ((client p).projects_req)) = .ok presp)
    (hdata : Json.get presp.body "data" = some (.arr items))
    (hids : ∀ r ∈ items, (Json.get r "_id").isSome)
    (hmatch : ∃ r ∈ items, Json.get r "_id" = some (.str pid))
    (hok2 : reqOutcome (t (createReq p)) = .ok cresp)
    (hvm : Json.get cresp.body "data" = some vmdoc)
    (hmsg : (Json.get cresp.body "meta").bind (fun mj => Json.get mj "message") =
      some msg) :
    main p t = (.exit ⟨true, some msg, some vmdoc⟩,
                [(client p).projects_req, createReq p]) := by
  obtain ⟨r0, hr0, hid0⟩ := hmatch
  obtain ⟨v, w, hscan, hvid, hmw⟩ := projectScan_match p.project items (.obj [])
    hids ⟨r0, hr0, .str pid, hid0, by rw [hpid]; simp [pyEqOptStr]⟩
  rw [main_eq_present p t hstate, mainPresent_listed p t presp hok,
      mainPresentListed_found p t presp items v hdata hscan
        (get_some_not_emptyDict v "_id" w hvid),
      mainPresentCreate_ok p t cresp vmdoc msg hok2 hvm hmsg]

/-- Witness for C2: the spec's worked example (project `p1`, new VM `v1`). -/
theorem present_create_success_witness :
    main examplePresent exampleT =
      (.exit ⟨true, some (.str "ok"), some (.obj [("_id", .str "v1")])⟩,
       [(client examplePresent).projects_req, createReq examplePresent]) := by
  refine present_create_success examplePresent exampleT "p1"
    ⟨200, exampleBody exampleProjects⟩
    ⟨200, exampleBody (.obj [("_id", .str "v1")])⟩
    [.obj [("_id", .str "p1")]] (.obj [("_id", .str "v1")]) (.str "ok")
    rfl rfl rfl rfl ?_ ?_ rfl rfl rfl
  · intro r hr
    rw [List.mem_singleton] at hr
    subst hr
    rfl
  · exact ⟨.obj [("_id", .str "p1")], List.mem_singleton_self _, rfl⟩

/-- C3: with `state = absent`, the request trace is exactly the one delete-VM
request whatever the transport answers; and when that call succeeds, the
handler exits with `changed = true`, `message` equal to the delete response's
`meta.message`, and no `vm` key. -/
theorem absent_single_delete (p : Params) (t : Request → HttpResponse)
    (dresp : HttpResponse) (msg : Json)
    (hstate : p.state = "absent") :
    (main p t).2 = [deleteReq p]
    ∧ (reqOutcome (t (deleteReq p)) = .ok dresp →
       (Json.get dresp.body "meta").bind (fun mj => Json.get mj "message") =
         some msg →
       main p t = (.exit ⟨true, some msg, none⟩, [deleteReq p])) := by
  constructor
  · rw [main_eq_absent p t hstate]
    exact mainAbsent_trace p t
  · intro h hm
    rw [main_eq_absent p t hstate, mainAbsent_ok p t dresp msg h hm]

/-- Witness for C3: deleting VM `v1` against a transport that confirms. -/
theorem absent_single_delete_witness :
    (main exampleAbsent (fun _ => ⟨200, exampleBody .null⟩)).2 =
      [deleteReq exampleAbsent]
    ∧ main exampleAbsent (fun _ => ⟨200, exampleBody .null⟩) =
        (.exit ⟨true, some (.str "ok"), none⟩, [deleteReq exampleAbsent]) := by
  have h := absent_single_delete exampleAbsent (fun _ => ⟨200, exampleBody .null⟩)
    ⟨200, exampleBody .null⟩ (.str "ok") rfl
  exact ⟨h.1, h.2 rfl rfl⟩

/-- C7: every `ApiException` from a client call in either branch is caught at
the handler boundary and turned into a terminal failure made of the fixed
prefix for that step plus the exception's message, with no further API call
and no `changed = true` result; and every failure message the handler can
emit starts with one of the four fixed prefixes. -/
theorem failures_reported_and_halt (p : Params) (t : Request → HttpResponse)
    (m pid : String) (presp : HttpResponse) (items : List Json) :
    (p.state = "present" →
      reqOutcome (t ((client p).projects_req)) = .error (.apiExc (.str m)) →
      main p t = (.fail ("Unable to get projects: " ++ m),
                  [(client p).projects_req]))
    ∧ (p.state = "present" → p.project = some pid →
       reqOutcome (t ((client p).projects_req)) = .ok presp →
       Json.get presp.body "data" = some (.arr items) →
       (∀ r ∈ items, (Json.get r "_id").isSome) →
       (∃ r ∈ items, Json.get r "_id" = some (.str pid)) →
       reqOutcome (t (createReq p)) = .error (.apiExc (.str m)) →
       main p t = (.fail ("Unable to create VM: " ++ m),
                   [(client p).projects_req, createReq p]))
    ∧ (p.state = "absent" →
       reqOutcome (t (deleteReq p)) = .error (.apiExc (.str m)) →
       main p t = (.fail ("Unable to delete VM: " ++ m), [deleteReq p]))
    ∧ (∀ msg, (main p t).1 = .fail msg →
       (∃ s, msg = "Unable to get projects: " ++ s)
       ∨ (∃ s, msg = "Unable to find project with id " ++ s)
       ∨ (∃ s, msg = "Unable to create VM: " ++ s)
       ∨ (∃ s, msg = "Unable to delete VM: " ++ s)) := by
  refine ⟨fun hstate h => ?_,
    fun hstate hpid hok hdata hids hmatch h2 => ?_,
    fun hstate h => ?_,
    fun msg hfail => ?_⟩
  · rw [main_eq_present p t hstate, mainPresent_fail p t m h]
  · obtain ⟨r0, hr0, hid0⟩ := hmatch
    obtain ⟨v, w, hscan, hvid, hmw⟩ := projectScan_match p.project items
      (.obj []) hids ⟨r0, hr0, .str pid, hid0, by rw [hpid]; simp [pyEqOptStr]⟩
    rw [main_eq_present p t hstate, mainPresent_listed p t presp hok,
        mainPresentListed_found p t presp items v hdata hscan
          (get_some_not_emptyDict v "_id" w hvid),
        mainPresentCreate_fail p t m h2]
  · rw [main_eq_absent p t hstate, mainAbsent_fail p t m h]
  · by_cases hp : p.state = "present"
    · rw [main_eq_present p t hp] at hfail
      rcases mainPresent_cases p t with hc | ⟨s, hc⟩ | ⟨s, hc⟩ | ⟨s, hc⟩ |
        ⟨r', hc, _⟩
      · cases hc.symm.trans hfail
      · exact Or.inl ⟨s, (Outcome.fail.inj (hc.symm.trans hfail)).symm⟩
      · exact Or.inr (Or.inl ⟨s, (Outcome.fail.inj (hc.symm.trans hfail)).symm⟩)
      · exact Or.inr (Or.inr (Or.inl
          ⟨s, (Outcome.fail.inj (hc.symm.trans hfail)).symm⟩))
      · cases hc.symm.trans hfail
    · by_cases hq : p.state = "absent"
      · rw [main_eq_absent p t hq] at hfail
        rcases mainAbsent_cases p t with hc | ⟨s, hc⟩ | ⟨r', hc, _⟩
        · cases hc.symm.trans hfail
        · exact Or.inr (Or.inr (Or.inr
            ⟨s, (Outcome.fail.inj (hc.symm.trans hfail)).symm⟩))
        · cases hc.symm.trans hfail
      · simp [main, hp, hq] at hfail

/-- Witness for C7's three conversion cases: an unreachable API (HTTP 500)
in each branch and an API-refused creation. -/
theorem failures_reported_and_halt_witness :
    main examplePresent exampleTDown =
      (.fail ("Unable to get projects: " ++ "API returned HTTP 500"),
       [(client examplePresent).projects_req])
    ∧ main examplePresent exampleTCreateFail =
      (.fail ("Unable to create VM: " ++ "quota exceeded"),
       [(client examplePresent).projects_req, createReq examplePresent])
    ∧ main exampleAbsent exampleTDown =
      (.fail ("Unable to delete VM: " ++ "API returned HTTP 500"),
       [deleteReq exampleAbsent]) := by
  refine ⟨?_, ?_, ?_⟩
  · exact (failures_reported_and_halt examplePresent exampleTDown
      "API returned HTTP 500" "p1" ⟨500, .null⟩ []).1 rfl rfl
  · refine (failures_reported_and_halt examplePresent exampleTCreateFail
      "quota exceeded" "p1" ⟨200, exampleBody exampleProjects⟩
      [.obj [("_id", .str "p1")]]).2.1 rfl rfl rfl rfl ?_ ?_ rfl
    · intro r hr
      rw [List.mem_singleton] at hr
      subst hr
      rfl
    · exact ⟨.obj [("_id", .str "p1")], List.mem_singleton_self _, rfl⟩
  · exact (failures_reported_and_halt exampleAbsent exampleTDown
      "API returned HTTP 500" "p1" ⟨500, .null⟩ []).2.2.1 rfl rfl

/-- C8: the create-VM request is a POST whose JSON body consists of exactly
the five fields hostname, pop, project, plan, os bound to the supplied
arguments in that order; every request `_req` builds carries the single
header `Authorization` whose value is the api_key verbatim; and the request
`main` builds binds those fields to the corresponding parameters. -/
theorem create_vm_request_shape (k : String)
    (hostname pop project plan osv : Json)
    (method endpoint : String) (body : Option Json) :
    Aarch64Client.create_vm_req ⟨k⟩ hostname pop project plan osv =
      { method := "POST", url := server ++ "/vms/create",
        body := some (.obj [("hostname", hostname), ("pop", pop),
          ("project", project), ("plan", plan), ("os", osv)]),
        headers := [("Authorization", k)] }
    ∧ (Aarch64Client.req_request ⟨k⟩ method endpoint body).headers =
        [("Authorization", k)]
    ∧ (∀ p : Params, createReq p =
        { method := "POST", url := server ++ "/vms/create",
          body := some (.obj [("hostname", optJson p.hostname),
            ("pop", optJson p.pop), ("project", optJson p.project),
            ("plan", optJson p.plan), ("os", optJson p.os)]),
          headers := [("Authorization", p.api_key)] }) :=
  ⟨rfl, rfl, fun _ => rfl⟩

/-- C9: a `vm` key appears in a result document only on the successful-
creation path: any exiting result with a `vm` payload arose with
`state = present`, `changed = true` and a `message`; with `state = absent`
an exiting result never has a `vm` key.  (Failure reports carry only a
message by construction, and `changed`, `message`, `vm` are the only keys
`main` ever sets, as the `ResultDoc` type records.) -/
theorem vm_only_on_successful_creation (p : Params) (t : Request → HttpResponse)
    (r : ResultDoc) (h : (main p t).1 = .exit r) :
    (r.vm.isSome → p.state = "present" ∧ r.changed = true ∧ r.message.isSome)
    ∧ (p.state = "absent" → r.vm = none) := by
  by_cases hp : p.state = "present"
  · rw [main_eq_present p t hp] at h
    rcases mainPresent_cases p t with hc | ⟨s, hc⟩ | ⟨s, hc⟩ | ⟨s, hc⟩ |
      ⟨r', hc, h1, h2, h3⟩
    · cases hc.symm.trans h
    · cases hc.symm.trans h
    · cases hc.symm.trans h
    · cases hc.symm.trans h
    · have hr := Outcome.exit.inj (hc.symm.trans h)
      subst hr
      exact ⟨fun _ => ⟨hp, h1, h2⟩,
        fun habs => absurd (hp.symm.trans habs) (by decide)⟩
  · by_cases hq : p.state = "absent"
    · rw [main_eq_absent p t hq] at h
      rcases mainAbsent_cases p t with hc | ⟨s, hc⟩ | ⟨r', hc, h1, h2, h3⟩
      · cases hc.symm.trans h
      · cases hc.symm.trans h
      · have hr := Outcome.exit.inj (hc.symm.trans h)
        subst hr
        refine ⟨fun hvm => ?_, fun _ => h3⟩
        rw [h3] at hvm
        cases hvm
    · have hmain : main p t = (.exit ⟨false, none, none⟩, []) := by
        simp [main, hp, hq]
      rw [hmain] at h
      have hr := Outcome.exit.inj h
      subst hr
      refine ⟨fun hvm => ?_, fun habs => absurd habs hq⟩
      cases hvm

/-- Witness for C9 at a successful deletion. -/
theorem vm_only_on_successful_creation_witness :
    ((⟨true, some (.str "ok"), none⟩ : ResultDoc).vm.isSome →
      exampleAbsent.state = "present"
      ∧ (⟨true, some (.str "ok"), none⟩ : ResultDoc).changed = true
      ∧ (⟨true, some (.str "ok"), none⟩ : ResultDoc).message.isSome)
    ∧ (exampleAbsent.state = "absent" →
       (⟨true, some (.str "ok"), none⟩ : ResultDoc).vm = none) :=
  vm_only_on_successful_creation exampleAbsent
    (fun _ => ⟨200, exampleBody .null⟩) ⟨true, some (.str "ok"), none⟩ rfl

/-- C10: soundness of the `{}` sentinel.  With every listed record carrying
an `_id` key, the handler reports "Unable to find project with id <id>" if
and only if no record's `_id` equals the requested id: a matching record has
an `_id` key, hence is never the empty dict, so reaching the create stage can
never produce that failure message (its own failure carries a different
prefix), and although the scan has no early exit, only the existence of a
match is observable. -/
theorem sentinel_sound (p : Params) (t : Request → HttpResponse)
    (pid : String) (presp : HttpResponse) (items : List Json)
    (hstate : p.state = "present") (hpid : p.project = some pid)
    (hok : reqOutcome (t ((client p).projects_req)) = .ok presp)
    (hdata : Json.get presp.body "data" = some (.arr items))
    (hids : ∀ r ∈ items, (Json.get r "_id").isSome) :
    (main p t).1 = .fail ("Unable to find project with id " ++ pid)
      ↔ ∀ r ∈ items, Json.get r "_id" ≠ some (.str pid) := by
  constructor
  · intro hfail
    by_contra hex
    push_neg at hex
    obtain ⟨r0, hr0, hid0⟩ := hex
    obtain ⟨v, w, hscan, hvid, hmw⟩ := projectScan_match p.project items
      (.obj []) hids ⟨r0, hr0, .str pid, hid0, by rw [hpid]; simp [pyEqOptStr]⟩
    rw [main_eq_present p t hstate, mainPresent_listed p t presp hok,
        mainPresentListed_found p t presp items v hdata hscan
          (get_some_not_emptyDict v "_id" w hvid)] at hfail
    rcases mainPresentCreate_cases p t with hc | ⟨m, hc⟩ | ⟨r', hc, _⟩
    · cases hc.symm.trans hfail
    · exact absurd (Outcome.fail.inj (hc.symm.trans hfail))
        (create_msg_ne_find_msg m pid)
    · cases hc.symm.trans hfail
  · intro hno
    have hscan : projectScan items p.project (.obj []) = .ok (.obj []) := by
      rw [hpid]
      exact projectScan_no_match (some pid) items _ hids
        (no_match_of_forall_ne items pid hno)
    rw [main_eq_present p t hstate, mainPresent_listed p t presp hok,
        mainPresentListed_notfound p t presp items hdata hscan, hpid]
    rfl

/-- Witness for C10: an empty listing, where both sides of the equivalence
hold. -/
theorem sentinel_sound_witness :
    (main examplePresent exampleTEmpty).1 =
        .fail ("Unable to find project with id " ++ "p1")
      ↔ ∀ r ∈ ([] : List Json), Json.get r "_id" ≠ some (.str "p1") :=
  sentinel_sound examplePresent exampleTEmpty "p1"
    ⟨200, exampleBody (.arr [])⟩ [] rfl rfl rfl rfl
    (fun r hr => absurd hr (List.not_mem_nil r))

end Aarch64VM
